import Mathlib

/-!
Verification of the change-detection / snapshot-lifecycle core of
`src/scripts/monitor.py` (logistics-law site monitor).

The Python source is embedded shallowly:

* `calculate_hash` (line 36) is `hashlib.md5(text.encode("utf-8")).hexdigest()`;
  we embed UTF-8 encoding and the full RFC 1321 MD5 algorithm over `Nat` bytes.
* the snapshot directory is a list of `Entry` (one `.txt` + optional `.json`
  metadata per snapshot); `get_latest_snapshot` / `save_snapshot` are the
  functions of lines 40-85.
* `main` (lines 304-370) becomes `runMain`, a pure function of an `Env`
  (fetch outcome, wall-clock strings, API key, provider outcome, webhook)
  and a filesystem state `FS`, returning the new state, the exit status and
  a trace of externally visible events.
-/

set_option maxRecDepth 100000

/-- The modulus 2^32 for MD5 32-bit arithmetic. -/
def M32 : Nat := 4294967296

/-- Addition modulo 2^32. -/
def add32 (a b : Nat) : Nat := (a + b) % M32

/-- Left-rotation of a 32-bit word by `s` bits (inputs assumed `< 2^32`). -/
def rotl32 (x s : Nat) : Nat := ((x <<< s) % M32) ||| (x >>> (32 - s))

/-- Bitwise complement of a 32-bit word. -/
def not32 (x : Nat) : Nat := x ^^^ 4294967295

/-- MD5 round function F (rounds 0-15). -/
def mdF (b c d : Nat) : Nat := (b &&& c) ||| (not32 b &&& d)

/-- MD5 round function G (rounds 16-31). -/
def mdG (b c d : Nat) : Nat := (b &&& d) ||| (c &&& not32 d)

/-- MD5 round function H (rounds 32-47). -/
def mdH (b c d : Nat) : Nat := b ^^^ c ^^^ d

/-- MD5 round function I (rounds 48-63). -/
def mdI (b c d : Nat) : Nat := c ^^^ (b ||| not32 d)

/-- MD5 sine-derived constants `K[i] = floor(abs(sin(i+1)) * 2^32)` (RFC 1321). -/
def mdK : List Nat :=
  [3614090360, 3905402710, 606105819, 3250441966,
   4118548399, 1200080426, 2821735955, 4249261313,
   1770035416, 2336552879, 4294925233, 2304563134,
   1804603682, 4254626195, 2792965006, 1236535329,
   4129170786, 3225465664, 643717713, 3921069994,
   3593408605, 38016083, 3634488961, 3889429448,
   568446438, 3275163606, 4107603335, 1163531501,
   2850285829, 4243563512, 1735328473, 2368359562,
   4294588738, 2272392833, 1839030562, 4259657740,
   2763975236, 1272893353, 4139469664, 3200236656,
   681279174, 3936430074, 3572445317, 76029189,
   3654602809, 3873151461, 530742520, 3299628645,
   4096336452, 1126891415, 2878612391, 4237533241,
   1700485571, 2399980690, 4293915773, 2240044497,
   1873313359, 4264355552, 2734768916, 1309151649,
   4149444226, 3174756917, 718787259, 3951481745]

/-- MD5 per-round left-rotation amounts (RFC 1321). -/
def mdS : List Nat :=
  [7, 12, 17, 22, 7, 12, 17, 22, 7, 12, 17, 22, 7, 12, 17, 22,
   5, 9, 14, 20, 5, 9, 14, 20, 5, 9, 14, 20, 5, 9, 14, 20,
   4, 11, 16, 23, 4, 11, 16, 23, 4, 11, 16, 23, 4, 11, 16, 23,
   6, 10, 15, 21, 6, 10, 15, 21, 6, 10, 15, 21, 6, 10, 15, 21]

/-- Group a byte list into little-endian 32-bit words (4 bytes each). -/
def toLEWords : List Nat → List Nat
  | b0 :: b1 :: b2 :: b3 :: rest =>
      (b0 + 256 * b1 + 65536 * b2 + 16777216 * b3) :: toLEWords rest
  | _ => []

/-- One MD5 round: state `(a,b,c,d)`, message words `m`, round index `i`. -/
def md5Round (m : List Nat) (st : Nat × Nat × Nat × Nat) (i : Nat) :
    Nat × Nat × Nat × Nat :=
  let a := st.1
  let b := st.2.1
  let c := st.2.2.1
  let d := st.2.2.2
  let f :=
    if i < 16 then mdF b c d
    else if i < 32 then mdG b c d
    else if i < 48 then mdH b c d
    else mdI b c d
  let g :=
    if i < 16 then i
    else if i < 32 then (5 * i + 1) % 16
    else if i < 48 then (3 * i + 5) % 16
    else (7 * i) % 16
  let tmp := (a + f + mdK.getD i 0 + m.getD g 0) % M32
  (d, add32 b (rotl32 tmp (mdS.getD i 0)), b, c)

/-- Process one 64-byte chunk, updating the four-word MD5 state. -/
def md5Compress (st : Nat × Nat × Nat × Nat) (chunk : List Nat) :
    Nat × Nat × Nat × Nat :=
  let m := toLEWords chunk
  let r := (List.range 64).foldl (md5Round m) st
  (add32 st.1 r.1, add32 st.2.1 r.2.1, add32 st.2.2.1 r.2.2.1,
   add32 st.2.2.2 r.2.2.2)

/-- Split a byte list into 64-byte chunks; the fuel argument (an upper bound
on the number of chunks, instantiated with the list length) makes the
recursion structural so that it reduces in the kernel. -/
def splitChunksAux : Nat → List Nat → List (List Nat)
  | 0, _ => []
  | _, [] => []
  | fuel + 1, l => l.take 64 :: splitChunksAux fuel (l.drop 64)

/-- Split a byte list into 64-byte chunks. -/
def splitChunks (l : List Nat) : List (List Nat) :=
  splitChunksAux l.length l

/-- Little-endian byte decomposition of a 32-bit word. -/
def wordLE (w : Nat) : List Nat :=
  [w % 256, w / 256 % 256, w / 65536 % 256, w / 16777216 % 256]

/-- MD5 padding: append `0x80`, zeros to 56 mod 64, then the 64-bit
little-endian bit length. -/
def md5Pad (msg : List Nat) : List Nat :=
  let padLen := (119 - msg.length % 64) % 64
  let bitLen := (8 * msg.length) % 18446744073709551616
  msg ++ 128 :: List.replicate padLen 0 ++
    (wordLE (bitLen % M32) ++ wordLE (bitLen / M32))

/-- MD5 of a byte list, as the 16 output bytes. -/
def md5Bytes (msg : List Nat) : List Nat :=
  let st := (splitChunks (md5Pad msg)).foldl md5Compress
    (1732584193, 4023233417, 2562383102, 271733878)
  wordLE st.1 ++ wordLE st.2.1 ++ wordLE st.2.2.1 ++ wordLE st.2.2.2

/-- UTF-8 encoding of a single character (`str.encode("utf-8")`, per char). -/
def utf8EncodeChar (c : Char) : List Nat :=
  let n := c.toNat
  if n < 128 then [n]
  else if n < 2048 then [192 ||| (n >>> 6), 128 ||| (n &&& 63)]
  else if n < 65536 then
    [224 ||| (n >>> 12), 128 ||| ((n >>> 6) &&& 63), 128 ||| (n &&& 63)]
  else
    [240 ||| (n >>> 18), 128 ||| ((n >>> 12) &&& 63),
     128 ||| ((n >>> 6) &&& 63), 128 ||| (n &&& 63)]

/-- UTF-8 encoding of a string as a byte list (`text.encode("utf-8")`). -/
def utf8Encode (s : String) : List Nat :=
  (s.data.map utf8EncodeChar).flatten

/-- Lower-case hex digit for a nibble. -/
def hexChar (n : Nat) : Char :=
  if n < 10 then Char.ofNat (48 + n) else Char.ofNat (87 + n)

/-- Lower-case hex rendering of a byte list (`.hexdigest()`). -/
def hexString (bytes : List Nat) : String :=
  String.mk ((bytes.map (fun b => [hexChar (b / 16), hexChar (b % 16)])).flatten)

/-- Embeds `calculate_hash` (monitor.py line 36):
`hashlib.md5(text.encode("utf-8")).hexdigest()`. -/
def calculate_hash (text : String) : String :=
  hexString (md5Bytes (utf8Encode text))

/-- The constant `TARGET_URL` (monitor.py line 17). -/
def TARGET_URL : String :=
  "https://www.mlit.go.jp/seisakutokatsu/freight/seisakutokatsu_freight_mn1_000029.html"

/-- Python truthiness of an optional string (`if old_hash ...`, `if not api_key ...`):
`None` and the empty string are falsy. -/
def pyTruthy : Option String → Bool
  | none => false
  | some s => s != ""

/-- The contents of a snapshot metadata `.json` file, as read back via
`meta.get("hash")` etc.  `hash` is `Option` because a metadata file written
by an external tool (or a legacy one) may lack the `hash` entry or hold
`null`; `save_snapshot` itself always writes a concrete hash. -/
structure SnapshotMeta where
  timestamp : String
  url : String
  hash : Option String
  size_bytes : Nat
deriving DecidableEq, Repr

/-- One snapshot in the `snapshots/` directory: the `snapshot_{name}.txt`
body plus the optional `snapshot_{name}.json` metadata file.  `name` is the
`%Y%m%d_%H%M%S` timestamp part of the filename. -/
structure Entry where
  name : String
  content : String
  meta : Option SnapshotMeta
deriving DecidableEq, Repr

/-- Lexicographic order on character lists: Python's string comparison by
code points (used by `sorted` on the snapshot filenames). -/
def charListLt : List Char → List Char → Bool
  | [], [] => false
  | [], _ :: _ => true
  | _ :: _, [] => false
  | a :: as, b :: bs => if a < b then true else if b < a then false else charListLt as bs

/-- Comparison `a < b` for strings, by code points, as Python compares them. -/
def strLt (a b : String) : Bool := charListLt a.data b.data

/-- Pick the entry with the lexicographically largest name (ties resolved to
the later occurrence), matching `sorted(SNAPSHOT_DIR.glob(...))[-1]`. -/
def latestPick (e : Entry) : List Entry → Entry
  | [] => e
  | f :: fs => if strLt f.name e.name then latestPick e fs else latestPick f fs

/-- The entry `sorted(...)[-1]` of the snapshot directory, if any. -/
def latestEntry : List Entry → Option Entry
  | [] => none
  | e :: es => some (latestPick e es)

/-- Embeds `get_latest_snapshot` (monitor.py lines 40-62): returns
`(filename, content, old_hash)`, all `None` on an empty directory.  When the
metadata file exists the stored `hash` entry is used as-is (`meta.get("hash")`,
possibly `None`); only when the metadata file is missing is the hash
recomputed from the stored content. -/
def get_latest_snapshot (st : List Entry) :
    Option String × Option String × Option String :=
  match latestEntry st with
  | none => (none, none, none)
  | some e =>
    let old_hash :=
      match e.meta with
      | some m => m.hash
      | none => some (calculate_hash e.content)
    (some ("snapshot_" ++ e.name ++ ".txt"), some e.content, old_hash)

/-- Write a file into the snapshot directory: `open(filename, "w")`
overwrites an existing file of the same name, otherwise the file is new. -/
def writeEntry (st : List Entry) (e : Entry) : List Entry :=
  if st.any (fun f => f.name == e.name) then
    st.map (fun f => if f.name == e.name then e else f)
  else st ++ [e]

/-- The snapshot (body + metadata) that `save_snapshot` creates for clock
string `ts` (monitor.py lines 66-82). -/
def mkSnapshotEntry (ts content content_hash : String) : Entry :=
  { name := ts
    content := content
    meta := some
      { timestamp := ts
        url := TARGET_URL
        hash := some content_hash
        size_bytes := (utf8Encode content).length } }

/-- Embeds `save_snapshot` (monitor.py lines 64-85): stamps the snapshot with the
current wall-clock string `ts = datetime.now().strftime("%Y%m%d_%H%M%S")`
and writes the `.txt` body and `.json` metadata. -/
def save_snapshot (st : List Entry) (ts content content_hash : String) :
    List Entry :=
  writeEntry st (mkSnapshotEntry ts content content_hash)

/-- The change decision of monitor.py line 323:
`if old_hash and current_hash == old_hash:` — `true` means the Unchanged
branch is taken. -/
def is_unchanged : Option String → String → Bool
  | none, _ => false
  | some h, cur => (h != "") && (cur == h)

/-- One entry of the `action_items` list: a JSON object whose keys
対象者 / アクション / 期限 are read with `.get(_, "-")`. -/
structure ActionItem where
  taishousha : Option String := none
  akushon : Option String := none
  kigen : Option String := none
deriving DecidableEq, Repr

/-- The analysis dictionary flowing out of `analyze_with_claude` and into
`generate_markdown_report` / `save_reports`.  Every recognized key is
optional (`analysis.get(...)`); `extra` carries unrecognized keys, which
only matter for Python dict truthiness. -/
structure AnalysisDict where
  analysis_date : Option String := none
  change_detected : Option Bool := none
  change_summary : Option String := none
  key_points : Option (List String) := none
  stakeholder_impact : Option (List (String × String)) := none
  important_dates : Option (List (String × String)) := none
  action_items : Option (List ActionItem) := none
  confidence : Option String := none
  error : Option String := none
  raw : Option String := none
  extra : List (String × String) := []
deriving DecidableEq, Repr

/-- Python truthiness of the analysis dict (`if analysis ...`): a dict is
truthy iff it is non-empty. -/
def dictTruthy (a : AnalysisDict) : Bool :=
  a.analysis_date.isSome || a.change_detected.isSome ||
  a.change_summary.isSome || a.key_points.isSome ||
  a.stakeholder_impact.isSome || a.important_dates.isSome ||
  a.action_items.isSome || a.confidence.isSome ||
  a.error.isSome || a.raw.isSome || !a.extra.isEmpty

/-- The locally synthesized no-change result (monitor.py lines 327-332). -/
def no_change_analysis (date : String) : AnalysisDict :=
  { analysis_date := some date
    change_detected := some false
    change_summary := some "前回チェックから変更はありませんでした。"
    confidence := some "high" }

/-! Report renderer: `generate_markdown_report`, lines 193-263. -/

/-- The fixed report header with the generation time
(`datetime.now().strftime("%Y年%m月%d日 %H:%M:%S")`). -/
def report_header (now : String) : String :=
  "# 物流効率化法 監視レポート\n\n**最終更新**: " ++ now ++
  "  \n**対象URL**: [" ++ TARGET_URL ++ "](" ++ TARGET_URL ++
  ")\n\n---\n\n## 📋 解析結果\n\n### 変更検知\n\n"

/-- Line for `if analysis.get("change_detected"):` (lines 209-212). -/
def change_detected_line (a : AnalysisDict) : String :=
  if a.change_detected.getD false then "🆕 **変更が検出されました**\n\n"
  else "✨ 変更なし（前回から更新なし）\n\n"

/-- Section for `if analysis.get("change_summary"):` (lines 215-216);
absent (or empty, hence falsy) summary renders nothing. -/
def change_summary_section (a : AnalysisDict) : String :=
  match a.change_summary with
  | some s => if s != "" then "### 変更概要\n\n" ++ s ++ "\n\n" else ""
  | none => ""

/-- The numbered lines `f"{i}. {point}\n"` of the key-points section. -/
def key_points_lines : Nat → List String → String
  | _, [] => ""
  | i, p :: ps => toString i ++ ". " ++ p ++ "\n" ++ key_points_lines (i + 1) ps

/-- Section for `if analysis.get("key_points"):` (lines 219-223). -/
def key_points_section (a : AnalysisDict) : String :=
  match a.key_points with
  | some ps =>
    if ps.isEmpty then ""
    else "### 重要ポイント\n\n" ++ key_points_lines 1 ps ++ "\n"
  | none => ""

/-- The per-stakeholder blocks `f"### {stakeholder}\n\n{impact}\n\n"`. -/
def stakeholder_lines : List (String × String) → String
  | [] => ""
  | (k, v) :: rest => "### " ++ k ++ "\n\n" ++ v ++ "\n\n" ++ stakeholder_lines rest

/-- Section for `if analysis.get("stakeholder_impact"):` (lines 226-229). -/
def stakeholder_section (a : AnalysisDict) : String :=
  match a.stakeholder_impact with
  | some m =>
    if m.isEmpty then ""
    else "## 👥 対象者別の影響\n\n" ++ stakeholder_lines m
  | none => ""

/-- The table rows `f"| {item} | {date} |\n"`. -/
def dates_lines : List (String × String) → String
  | [] => ""
  | (k, v) :: rest => "| " ++ k ++ " | " ++ v ++ " |\n" ++ dates_lines rest

/-- Section for `if analysis.get("important_dates"):` (lines 232-238). -/
def important_dates_section (a : AnalysisDict) : String :=
  match a.important_dates with
  | some m =>
    if m.isEmpty then ""
    else "## 📅 重要な日程\n\n| 項目 | 日付 |\n|------|------|\n" ++
      dates_lines m ++ "\n"
  | none => ""

/-- The table rows built from `item.get("対象者", "-")` etc. (line 246). -/
def action_items_lines : List ActionItem → String
  | [] => ""
  | it :: rest =>
    "| " ++ it.taishousha.getD "-" ++ " | " ++ it.akushon.getD "-" ++
    " | " ++ it.kigen.getD "-" ++ " |\n" ++ action_items_lines rest

/-- Section for `if analysis.get("action_items"):` (lines 241-247). -/
def action_items_section (a : AnalysisDict) : String :=
  match a.action_items with
  | some its =>
    if its.isEmpty then ""
    else "## ✅ 必要なアクション\n\n| 対象者 | アクション | 期限 |\n|--------|-----------|------|\n" ++
      action_items_lines its ++ "\n"
  | none => ""

/-- The `confidence_emoji` dict lookup with default `"⚪"` (lines 251-257). -/
def confidence_emoji (c : String) : String :=
  (([("high", "🟢"), ("medium", "🟡"), ("low", "🔴"), ("unknown", "⚪")] :
    List (String × String)).lookup c).getD "⚪"

/-- Confidence section (lines 250-257): the level defaults to `"unknown"`
when the key is absent (`analysis.get("confidence", "unknown")`). -/
def confidence_section (a : AnalysisDict) : String :=
  let conf := a.confidence.getD "unknown"
  "## 📊 解析信頼度\n\n" ++ confidence_emoji conf ++ " **" ++
  conf.toUpper ++ "**\n\n"

/-- The fixed report footer (lines 260-261). -/
def report_footer : String :=
  "---\n\n*このレポートは自動生成されました。最新情報は必ず[公式サイト](" ++
  "https://www.mlit.go.jp/seisakutokatsu/freight/seisakutokatsu_freight_mn1_000029.html" ++
  ")でご確認ください。*\n"

/-- Embeds `generate_markdown_report` (lines 193-263): the `md += ...`
pieces in source order. -/
def generate_markdown_report (now : String) (a : AnalysisDict) : String :=
  report_header now ++ change_detected_line a ++ change_summary_section a ++
  key_points_section a ++ stakeholder_section a ++ important_dates_section a ++
  action_items_section a ++ confidence_section a ++ report_footer

/-! Orchestrator: `main`, lines 304-370. -/

/-- The mutable filesystem state the run can touch: the snapshot directory,
the two report files `reports/index.md` and `reports/latest.json`, and the
last Slack message actually posted. -/
structure FS where
  snapshots : List Entry
  reportMd : Option String
  reportJson : Option AnalysisDict
  notified : Option String
deriving DecidableEq, Repr

/-- Behaviour of the external Claude call for this run, as seen from inside
the `try` of `analyze_with_claude`: the call (or the JSON decode) raises, or
it returns a response whose extracted JSON parses to `a`, or it returns a
response containing no extractable JSON object. -/
inductive ProviderOutcome where
  | raises (msg : String)
  | respondsParsed (a : AnalysisDict)
  | respondsUnparsable (raw : String)
deriving DecidableEq, Repr

/-- Externally visible side effects, in execution order. -/
inductive Event where
  | saveSnapshot
  | analysisCall
  | writeReports
  | notifySlack
deriving DecidableEq, Repr

/-- How the process ends: normal return from `main` (exit code 0) or an
exception re-raised from the `except` block (non-zero exit). -/
inductive RunResult where
  | ok
  | fetchFailed (e : String)
deriving DecidableEq, Repr

/-- Exit code of the Python process for a given run result. -/
def RunResult.exitCode : RunResult → Nat
  | .ok => 0
  | .fetchFailed _ => 1

/-- The environment of one invocation: the fetch outcome, the wall-clock
strings drawn by the three `datetime.now()` call sites, the credentials and
the provider behaviour. -/
structure Env where
  fetchResult : Except String String
  clock : String
  analysisDate : String
  reportNow : String
  apiKey : Option String
  provider : ProviderOutcome
  slackWebhook : Option String

/-- Embeds `analyze_with_claude` (lines 91-187): without a (truthy) API key it
returns `None` before any provider call; otherwise the provider is invoked
(event `analysisCall`) and an exception yields `{"error": str(e)}`, an
unparseable response `{"error": "JSON parsing failed", "raw": ...}`. -/
def analyze_with_claude (apiKey : Option String) (outcome : ProviderOutcome)
    (old_text : Option String) (new_text : String) :
    Option AnalysisDict × List Event :=
  match old_text, new_text with
  | _, _ =>
    if pyTruthy apiKey = false then (none, [])
    else
      match outcome with
      | .raises e => (some { error := some e }, [.analysisCall])
      | .respondsParsed a => (some a, [.analysisCall])
      | .respondsUnparsable raw =>
        (some { error := some "JSON parsing failed", raw := some raw },
         [.analysisCall])

/-- Embeds `save_reports` (lines 265-277): always writes both
`reports/index.md` and `reports/latest.json`. -/
def save_reports (fs : FS) (now : String) (analysis : AnalysisDict) : FS :=
  { fs with reportMd := some (generate_markdown_report now analysis)
            reportJson := some analysis }

/-- The Slack payload text (line 292). -/
def slack_text (message : String) : String :=
  "🚨 物流効率化法サイト更新\n\n" ++ message ++ "\n\n詳細: " ++ TARGET_URL

/-- The changed branch of `main` (lines 336-363): persist the snapshot,
then analyze, and only on a complete analysis render the reports and
notify; otherwise the run still returns normally. -/
def changedPath (env : Env) (fs : FS) (current_content : String) : FS × RunResult × List Event :=
  let current_hash := calculate_hash current_content
  let snaps := save_snapshot fs.snapshots env.clock current_content current_hash
  let ar := analyze_with_claude env.apiKey env.provider
    (get_latest_snapshot fs.snapshots).2.1 current_content
  match ar.1 with
  | some a =>
    if dictTruthy a && a.error.isNone then
      let fs2 := save_reports { fs with snapshots := snaps } env.reportNow a
      if pyTruthy env.slackWebhook then
        ({ fs2 with
            notified := some (slack_text (a.change_summary.getD "変更が検出されました")) },
         .ok, .saveSnapshot :: ar.2 ++ [.writeReports, .notifySlack])
      else (fs2, .ok, .saveSnapshot :: ar.2 ++ [.writeReports])
    else ({ fs with snapshots := snaps }, .ok, .saveSnapshot :: ar.2)
  | none => ({ fs with snapshots := snaps }, .ok, .saveSnapshot :: ar.2)

/-- Embeds `main` (lines 304-370) as a pure transition on the filesystem
state, also reporting the exit status and the trace of side effects. -/
def runMain (env : Env) (fs : FS) : FS × RunResult × List Event :=
  match env.fetchResult with
  | .error e => (fs, .fetchFailed e, [])
  | .ok current_content =>
    if is_unchanged (get_latest_snapshot fs.snapshots).2.2
        (calculate_hash current_content) then
      (save_reports fs env.reportNow (no_change_analysis env.analysisDate),
       .ok, [.writeReports])
    else changedPath env fs current_content

/-- Repeated scheduled invocations: fold `runMain` over a list of
per-invocation environments, collecting each run's outcome. -/
def runAll : List Env → FS → FS × List (FS × RunResult × List Event)
  | [], fs => (fs, [])
  | e :: es, fs =>
    let o := runMain e fs
    let r := runAll es o.1
    (r.1, o :: r.2)

/-! ## Theorems -/

/-- Test vectors: the embedded MD5/UTF-8 pipeline agrees with
`hashlib.md5(text.encode("utf-8")).hexdigest()` on known digests. -/
example : calculate_hash "" = "d41d8cd98f00b204e9800998ecf8427e" := by decide

example : calculate_hash "abc" = "900150983cd24fb0d6963f7d28e17f72" := by decide

example : calculate_hash "物流" = "ccbb7801eeb1f61b0d4e9282f2c5e645" := by decide

lemma hexPairs_length (bytes : List Nat) :
    ((bytes.map (fun b => [hexChar (b / 16), hexChar (b % 16)])).flatten).length
      = 2 * bytes.length := by
  induction bytes with
  | nil => rfl
  | cons b bs ih =>
    simp only [List.map_cons, List.flatten_cons, List.length_append,
      List.length_cons, List.length_nil, ih]
    omega

lemma md5Bytes_length (msg : List Nat) : (md5Bytes msg).length = 16 := by
  simp [md5Bytes, wordLE]

lemma calculate_hash_length (s : String) : (calculate_hash s).length = 32 := by
  have h := hexPairs_length (md5Bytes (utf8Encode s))
  simp only [calculate_hash, hexString, String.length, String.data] at *
  rw [h, md5Bytes_length]

lemma calculate_hash_ne_empty (s : String) : calculate_hash s ≠ "" := by
  intro h
  have hl := calculate_hash_length s
  rw [h] at hl
  simp at hl

/-- C1: for every run, the change decision of monitor.py line 323 is:
no prior baseline fingerprint → Changed; otherwise Changed iff the current
content's fingerprint differs from the latest stored fingerprint. -/
theorem change_decision_matches_fingerprints (st : List Entry) (content : String) :
    is_unchanged (get_latest_snapshot st).2.2 (calculate_hash content) = false ↔
      ((get_latest_snapshot st).2.2 = none ∨
       (get_latest_snapshot st).2.2 ≠ some (calculate_hash content)) := by
  cases hoh : (get_latest_snapshot st).2.2 with
  | none => simp [is_unchanged]
  | some h =>
    have hne := calculate_hash_ne_empty content
    by_cases hc : calculate_hash content = h
    · subst hc
      simp [is_unchanged, hne]
    · have hsymm : h ≠ calculate_hash content := fun heq => hc heq.symm
      simp [is_unchanged, hc, hsymm]

/-- C7: a fetch failure propagates as a non-zero exit and mutates nothing:
no snapshot is appended, no report file is written, nothing is notified. -/
theorem fetch_failure_no_mutation (env : Env) (fs : FS) (e : String)
    (hf : env.fetchResult = .error e) :
    (runMain env fs).1 = fs ∧
    (runMain env fs).2.1 = RunResult.fetchFailed e ∧
    ((runMain env fs).2.1).exitCode ≠ 0 ∧
    (runMain env fs).2.2 = [] := by
  simp [runMain, hf, RunResult.exitCode]

/-- Closed witness for `fetch_failure_no_mutation`. -/
theorem fetch_failure_no_mutation_witness :
    let env : Env :=
      { fetchResult := .error "timeout", clock := "c", analysisDate := "d",
        reportNow := "n", apiKey := none, provider := .raises "x",
        slackWebhook := none }
    let fs : FS :=
      { snapshots := [], reportMd := none, reportJson := none,
        notified := none }
    (runMain env fs).1 = fs ∧
    (runMain env fs).2.1 = RunResult.fetchFailed "timeout" ∧
    ((runMain env fs).2.1).exitCode ≠ 0 ∧
    (runMain env fs).2.2 = [] :=
  fetch_failure_no_mutation _ _ "timeout" rfl

lemma changedPath_trace_cons (env : Env) (fs : FS) (c : String) :
    ∃ t, (changedPath env fs c).2.2 = Event.saveSnapshot :: t := by
  rcases har : (analyze_with_claude env.apiKey env.provider
      (get_latest_snapshot fs.snapshots).2.1 c).1 with _ | a
  · simp only [changedPath, har]
    exact ⟨_, rfl⟩
  · simp only [changedPath, har]
    by_cases hd : (dictTruthy a && a.error.isNone) = true
    · simp only [hd, if_true]
      by_cases hw : pyTruthy env.slackWebhook = true
      · simp only [hw, if_true]
        exact ⟨_, rfl⟩
      · simp only [Bool.not_eq_true] at hw
        simp only [hw, Bool.false_eq_true, if_false]
        exact ⟨_, rfl⟩
    · simp only [Bool.not_eq_true] at hd
      simp only [hd, Bool.false_eq_true, if_false]
      exact ⟨_, rfl⟩

lemma changedPath_snapshots (env : Env) (fs : FS) (c : String) :
    (changedPath env fs c).1.snapshots =
      save_snapshot fs.snapshots env.clock c (calculate_hash c) := by
  rcases har : (analyze_with_claude env.apiKey env.provider
      (get_latest_snapshot fs.snapshots).2.1 c).1 with _ | a
  · simp only [changedPath, har]
  · simp only [changedPath, har]
    by_cases hd : (dictTruthy a && a.error.isNone) = true
    · by_cases hw : pyTruthy env.slackWebhook = true
      · simp only [hd, if_true, hw, save_reports]
      · simp only [Bool.not_eq_true] at hw
        simp only [hd, if_true, hw, Bool.false_eq_true, if_false, save_reports]
    · simp only [Bool.not_eq_true] at hd
      simp only [hd, Bool.false_eq_true, if_false]

lemma changedPath_result (env : Env) (fs : FS) (c : String) :
    (changedPath env fs c).2.1 = RunResult.ok := by
  rcases har : (analyze_with_claude env.apiKey env.provider
      (get_latest_snapshot fs.snapshots).2.1 c).1 with _ | a
  · simp only [changedPath, har]
  · simp only [changedPath, har]
    by_cases hd : (dictTruthy a && a.error.isNone) = true
    · by_cases hw : pyTruthy env.slackWebhook = true
      · simp only [hd, if_true, hw]
      · simp only [Bool.not_eq_true] at hw
        simp only [hd, if_true, hw, Bool.false_eq_true, if_false]
    · simp only [Bool.not_eq_true] at hd
      simp only [hd, Bool.false_eq_true, if_false]

/-- C2: in every run that takes the change path, the snapshot is persisted
before the external analysis call: any `analysisCall` in the event trace is
preceded by a `saveSnapshot`. -/
theorem snapshot_persisted_before_analysis (env : Env) (fs : FS) (j : Nat)
    (hj : ((runMain env fs).2.2).get? j = some Event.analysisCall) :
    ∃ i, i < j ∧ ((runMain env fs).2.2).get? i = some Event.saveSnapshot := by
  rcases henv : env.fetchResult with e | c
  · rw [runMain, henv] at hj
    simp at hj
  · rw [runMain, henv] at hj ⊢
    by_cases hu : is_unchanged (get_latest_snapshot fs.snapshots).2.2
        (calculate_hash c) = true
    · simp only [hu, if_true] at hj
      rcases j with _ | j
      · simp at hj
      · rcases j with _ | j <;> simp at hj
    · rw [Bool.not_eq_true] at hu
      simp only [hu, Bool.false_eq_true, if_false] at hj ⊢
      obtain ⟨t, ht⟩ := changedPath_trace_cons env fs c
      rw [ht] at hj ⊢
      rcases j with _ | j
      · simp at hj
      · exact ⟨0, Nat.succ_pos j, rfl⟩

/-- Closed witness for `snapshot_persisted_before_analysis`: a first run
with an API key present, whose provider raises. -/
theorem snapshot_persisted_before_analysis_witness :
    let env : Env :=
      { fetchResult := .ok "PAGE_V1", clock := "20250101_000000",
        analysisDate := "2025-01-01", reportNow := "t", apiKey := some "k",
        provider := .raises "boom", slackWebhook := none }
    let fs : FS :=
      { snapshots := [], reportMd := none, reportJson := none,
        notified := none }
    ((runMain env fs).2.2).get? 1 = some Event.analysisCall ∧
    ∃ i, i < 1 ∧ ((runMain env fs).2.2).get? i = some Event.saveSnapshot := by
  refine ⟨by decide, snapshot_persisted_before_analysis _ _ 1 (by decide)⟩

lemma runMain_unchanged_eq (env : Env) (fs : FS) (c : String)
    (hf : env.fetchResult = .ok c)
    (hu : is_unchanged (get_latest_snapshot fs.snapshots).2.2
      (calculate_hash c) = true) :
    runMain env fs =
      (save_reports fs env.reportNow (no_change_analysis env.analysisDate),
       RunResult.ok, [Event.writeReports]) := by
  simp [runMain, hf, hu]

lemma runMain_changed_eq (env : Env) (fs : FS) (c : String)
    (hf : env.fetchResult = .ok c)
    (hu : is_unchanged (get_latest_snapshot fs.snapshots).2.2
      (calculate_hash c) = false) :
    runMain env fs = changedPath env fs c := by
  simp [runMain, hf, hu]

lemma self_mem_writeEntry (st : List Entry) (e : Entry) : e ∈ writeEntry st e := by
  unfold writeEntry
  split
  · next h =>
    rcases List.any_eq_true.mp h with ⟨f, hf, hfe⟩
    exact List.mem_map.mpr ⟨f, hf, by simp [hfe]⟩
  · simp

/-- C6: an Unchanged run makes no provider call, locally synthesizes the
no-change result (change flag false, confidence high) and still writes both
report artifacts. -/
theorem unchanged_run_local_analysis (env : Env) (fs : FS) (c : String)
    (hf : env.fetchResult = .ok c)
    (hu : is_unchanged (get_latest_snapshot fs.snapshots).2.2
      (calculate_hash c) = true) :
    Event.analysisCall ∉ (runMain env fs).2.2 ∧
    (runMain env fs).1.reportMd =
      some (generate_markdown_report env.reportNow
        (no_change_analysis env.analysisDate)) ∧
    (runMain env fs).1.reportJson = some (no_change_analysis env.analysisDate) ∧
    (no_change_analysis env.analysisDate).change_detected = some false ∧
    (no_change_analysis env.analysisDate).confidence = some "high" := by
  rw [runMain_unchanged_eq env fs c hf hu]
  refine ⟨by simp, rfl, rfl, rfl, rfl⟩

/-- Closed witness for `unchanged_run_local_analysis`. -/
theorem unchanged_run_local_analysis_witness :
    let env : Env :=
      { fetchResult := .ok "PAGE_V1", clock := "20250102_000000",
        analysisDate := "2025-01-02", reportNow := "t", apiKey := some "k",
        provider := .respondsParsed {}, slackWebhook := none }
    let fs : FS :=
      { snapshots :=
          [{ name := "20250101_000000", content := "PAGE_V1",
             meta := some
               { timestamp := "20250101_000000", url := TARGET_URL,
                 hash := some (calculate_hash "PAGE_V1"), size_bytes := 7 } }],
        reportMd := none, reportJson := none, notified := none }
    Event.analysisCall ∉ (runMain env fs).2.2 ∧
    (runMain env fs).1.reportMd =
      some (generate_markdown_report "t" (no_change_analysis "2025-01-02")) ∧
    (runMain env fs).1.reportJson = some (no_change_analysis "2025-01-02") ∧
    (no_change_analysis "2025-01-02").change_detected = some false ∧
    (no_change_analysis "2025-01-02").confidence = some "high" := by
  exact unchanged_run_local_analysis _ _ "PAGE_V1" rfl (by decide)

lemma changedPath_failed_fs (env : Env) (fs : FS) (c : String)
    (hfail : pyTruthy env.apiKey = false ∨
      (∃ e, env.provider = ProviderOutcome.raises e) ∨
      ∃ r, env.provider = ProviderOutcome.respondsUnparsable r) :
    (changedPath env fs c).1 =
      { fs with snapshots :=
          save_snapshot fs.snapshots env.clock c (calculate_hash c) } := by
  by_cases hk : pyTruthy env.apiKey = true
  · rcases hfail with hk' | ⟨e, he⟩ | ⟨r, hr⟩
    · rw [hk'] at hk
      simp at hk
    · have har : (analyze_with_claude env.apiKey env.provider
          (get_latest_snapshot fs.snapshots).2.1 c).1 = some { error := some e } := by
        simp [analyze_with_claude, hk, he]
      have hcond : (dictTruthy { error := some e } &&
          ({ error := some e } : AnalysisDict).error.isNone) = false := by
        simp
      simp only [changedPath, har, hcond, Bool.false_eq_true, if_false]
    · have har : (analyze_with_claude env.apiKey env.provider
          (get_latest_snapshot fs.snapshots).2.1 c).1 =
          some { error := some "JSON parsing failed", raw := some r } := by
        simp [analyze_with_claude, hk, hr]
      have hcond : (dictTruthy { error := some "JSON parsing failed", raw := some r } &&
          ({ error := some "JSON parsing failed",
             raw := some r } : AnalysisDict).error.isNone) = false := by
        simp
      simp only [changedPath, har, hcond, Bool.false_eq_true, if_false]
  · rw [Bool.not_eq_true] at hk
    have har : (analyze_with_claude env.apiKey env.provider
        (get_latest_snapshot fs.snapshots).2.1 c).1 = none := by
      simp [analyze_with_claude, hk]
    simp only [changedPath, har]

/-- C3: on a changed run whose analysis fails (missing credentials, a
provider-side exception, or an unparseable response) the run still exits 0,
the report files and the notification state are untouched, and the newly
persisted snapshot remains in the history. -/
theorem analysis_failure_preserves_run (env : Env) (fs : FS) (c : String)
    (hf : env.fetchResult = .ok c)
    (hch : is_unchanged (get_latest_snapshot fs.snapshots).2.2
      (calculate_hash c) = false)
    (hfail : pyTruthy env.apiKey = false ∨
      (∃ e, env.provider = ProviderOutcome.raises e) ∨
      ∃ r, env.provider = ProviderOutcome.respondsUnparsable r) :
    (runMain env fs).2.1 = RunResult.ok ∧
    ((runMain env fs).2.1).exitCode = 0 ∧
    (runMain env fs).1.reportMd = fs.reportMd ∧
    (runMain env fs).1.reportJson = fs.reportJson ∧
    (runMain env fs).1.notified = fs.notified ∧
    (runMain env fs).1.snapshots =
      save_snapshot fs.snapshots env.clock c (calculate_hash c) ∧
    mkSnapshotEntry env.clock c (calculate_hash c) ∈ (runMain env fs).1.snapshots := by
  rw [runMain_changed_eq env fs c hf hch]
  have hfs := changedPath_failed_fs env fs c hfail
  have hres := changedPath_result env fs c
  rw [hfs, hres]
  exact ⟨rfl, rfl, rfl, rfl, rfl, rfl, self_mem_writeEntry _ _⟩

/-- Closed witness for `analysis_failure_preserves_run`: a first run with no
API key configured. -/
theorem analysis_failure_preserves_run_witness :
    let env : Env :=
      { fetchResult := .ok "PAGE_V2", clock := "20250103_000000",
        analysisDate := "2025-01-03", reportNow := "t", apiKey := none,
        provider := .raises "overloaded", slackWebhook := some "https://hooks.example" }
    let fs : FS :=
      { snapshots := [], reportMd := none, reportJson := none, notified := none }
    (runMain env fs).2.1 = RunResult.ok ∧
    ((runMain env fs).2.1).exitCode = 0 ∧
    (runMain env fs).1.reportMd = fs.reportMd ∧
    (runMain env fs).1.reportJson = fs.reportJson ∧
    (runMain env fs).1.notified = fs.notified ∧
    (runMain env fs).1.snapshots =
      save_snapshot fs.snapshots "20250103_000000" "PAGE_V2"
        (calculate_hash "PAGE_V2") ∧
    mkSnapshotEntry "20250103_000000" "PAGE_V2" (calculate_hash "PAGE_V2") ∈
      (runMain env fs).1.snapshots := by
  exact analysis_failure_preserves_run _ _ "PAGE_V2" rfl (by decide) (Or.inl rfl)

lemma writeEntry_fresh (st : List Entry) (e : Entry)
    (h : ∀ f ∈ st, f.name ≠ e.name) :
    writeEntry st e = st ++ [e] := by
  unfold writeEntry
  have hany : st.any (fun f => f.name == e.name) = false := by
    rw [List.any_eq_false]
    intro f hf
    simpa using h f hf
  simp [hany]

/-- C10: when the latest snapshot's metadata file exists but holds no
fingerprint, the baseline is `none` (not recomputed from the stored
content); the run is then classified Changed and appends a new snapshot
even when the fetched content is byte-identical to the stored one. -/
theorem missing_meta_hash_forces_change (env : Env) (fs : FS) (e : Entry)
    (m : SnapshotMeta) (c : String)
    (hf : env.fetchResult = .ok c)
    (hl : latestEntry fs.snapshots = some e)
    (hm : e.meta = some m)
    (hh : m.hash = none)
    (_hc : c = e.content) :
    (get_latest_snapshot fs.snapshots).2.2 = none ∧
    (runMain env fs).1.snapshots =
      save_snapshot fs.snapshots env.clock c (calculate_hash c) ∧
    ((∀ f ∈ fs.snapshots, f.name ≠ env.clock) →
      (runMain env fs).1.snapshots.length = fs.snapshots.length + 1) := by
  have hbase : (get_latest_snapshot fs.snapshots).2.2 = none := by
    simp [get_latest_snapshot, hl, hm, hh]
  have hch : is_unchanged (get_latest_snapshot fs.snapshots).2.2
      (calculate_hash c) = false := by
    rw [hbase]
    rfl
  refine ⟨hbase, ?_, ?_⟩
  · rw [runMain_changed_eq env fs c hf hch]
    exact changedPath_snapshots env fs c
  · intro hfresh
    rw [runMain_changed_eq env fs c hf hch, changedPath_snapshots env fs c]
    unfold save_snapshot
    rw [writeEntry_fresh _ _ (fun f hf' => hfresh f hf')]
    simp

/-- Closed witness for `missing_meta_hash_forces_change`: a legacy metadata
file without a `hash` entry, re-fetching identical content. -/
theorem missing_meta_hash_forces_change_witness :
    let e : Entry :=
      { name := "20250101_000000", content := "PAGE_V1",
        meta := some
          { timestamp := "20250101_000000", url := TARGET_URL,
            hash := none, size_bytes := 7 } }
    let env : Env :=
      { fetchResult := .ok "PAGE_V1", clock := "20250104_000000",
        analysisDate := "2025-01-04", reportNow := "t", apiKey := none,
        provider := .raises "x", slackWebhook := none }
    let fs : FS :=
      { snapshots := [e], reportMd := none, reportJson := none,
        notified := none }
    (get_latest_snapshot fs.snapshots).2.2 = none ∧
    (runMain env fs).1.snapshots =
      save_snapshot fs.snapshots "20250104_000000" "PAGE_V1"
        (calculate_hash "PAGE_V1") ∧
    (runMain env fs).1.snapshots.length = fs.snapshots.length + 1 := by
  intro e env fs
  obtain ⟨h1, h2, h3⟩ :=
    missing_meta_hash_forces_change env fs e _ "PAGE_V1" rfl rfl rfl rfl rfl
  exact ⟨h1, h2, h3 (by decide)⟩

/-- C4: an Unchanged run leaves the snapshot store exactly as it was, and
repeating the orchestrator any number of times on unchanged remote content
appends nothing while every run reports change flag false. -/
theorem unchanged_runs_append_nothing (envs : List Env) (fs : FS) (c : String)
    (hf : ∀ e ∈ envs, e.fetchResult = .ok c)
    (hu : is_unchanged (get_latest_snapshot fs.snapshots).2.2
      (calculate_hash c) = true) :
    (runAll envs fs).1.snapshots = fs.snapshots ∧
    ∀ o ∈ (runAll envs fs).2, o.1.snapshots = fs.snapshots ∧
      ∃ a, o.1.reportJson = some a ∧ a.change_detected = some false := by
  induction envs generalizing fs with
  | nil =>
    exact ⟨rfl, by simp [runAll]⟩
  | cons e es ih =>
    have he : e.fetchResult = .ok c := hf e (by simp)
    have hrun := runMain_unchanged_eq e fs c he hu
    have hsn : (runMain e fs).1.snapshots = fs.snapshots := by
      rw [hrun]
      rfl
    have hrj : (runMain e fs).1.reportJson =
        some (no_change_analysis e.analysisDate) := by
      rw [hrun]
      rfl
    have hu' : is_unchanged (get_latest_snapshot (runMain e fs).1.snapshots).2.2
        (calculate_hash c) = true := by
      rw [hsn]
      exact hu
    obtain ⟨h1, h2⟩ := ih (runMain e fs).1 (fun e' he' => hf e' (by simp [he'])) hu'
    constructor
    · show (runAll (e :: es) fs).1.snapshots = fs.snapshots
      simp only [runAll]
      rw [h1, hsn]
    · intro o ho
      simp only [runAll, List.mem_cons] at ho
      rcases ho with ho | ho
      · subst ho
        exact ⟨hsn, no_change_analysis e.analysisDate, hrj, rfl⟩
      · obtain ⟨ho1, a, ho2, ho3⟩ := h2 o ho
        exact ⟨by rw [ho1, hsn], a, ho2, ho3⟩

/-- Closed witness for `unchanged_runs_append_nothing`: two successive runs
over an unchanged page. -/
theorem unchanged_runs_append_nothing_witness :
    let mkEnv : String → Env := fun d =>
      { fetchResult := .ok "PAGE_V1", clock := d, analysisDate := d,
        reportNow := d, apiKey := some "k", provider := .raises "x",
        slackWebhook := none }
    let fs : FS :=
      { snapshots :=
          [{ name := "20250101_000000", content := "PAGE_V1",
             meta := some
               { timestamp := "20250101_000000", url := TARGET_URL,
                 hash := some (calculate_hash "PAGE_V1"), size_bytes := 7 } }],
        reportMd := none, reportJson := none, notified := none }
    let envs : List Env := [mkEnv "a", mkEnv "b"]
    (runAll envs fs).1.snapshots = fs.snapshots ∧
    ∀ o ∈ (runAll envs fs).2, o.1.snapshots = fs.snapshots ∧
      ∃ a, o.1.reportJson = some a ∧ a.change_detected = some false := by
  exact unchanged_runs_append_nothing _ _ "PAGE_V1"
    (by
      intro e he
      rcases List.mem_cons.mp he with rfl | he2
      · rfl
      · rcases List.mem_singleton.mp he2 with rfl
        rfl)
    (by decide)

lemma charListLt_irrefl : ∀ l : List Char, charListLt l l = false
  | [] => rfl
  | a :: as => by simp [charListLt, lt_irrefl, charListLt_irrefl as]

lemma strLt_ne {a b : String} (h : strLt a b = true) : a ≠ b := by
  intro heq
  subst heq
  rw [strLt, charListLt_irrefl] at h
  exact Bool.false_ne_true h

/-- C5 counterexample: `save_snapshot` stamps the snapshot with the raw
wall-clock string and has no monotonic-counter guard, so with a regressed
clock the new snapshot's timestamp is not greater than the previously
stored one and the stored history is not strictly increasing. -/
theorem timestamp_monotonicity_cex :
    save_snapshot
        [{ name := "20250101_120000", content := "PAGE_V1", meta := none }]
        "20240101_000000" "PAGE_V2" "h2" =
      [{ name := "20250101_120000", content := "PAGE_V1", meta := none },
       mkSnapshotEntry "20240101_000000" "PAGE_V2" "h2"] ∧
    strLt "20250101_120000"
        (mkSnapshotEntry "20240101_000000" "PAGE_V2" "h2").name = false ∧
    ¬ List.Chain' (fun a b : Entry => strLt a.name b.name = true)
        (save_snapshot
          [{ name := "20250101_120000", content := "PAGE_V1", meta := none }]
          "20240101_000000" "PAGE_V2" "h2") := by
  refine ⟨by decide, by decide, ?_⟩
  intro hch
  rw [show save_snapshot
      [{ name := "20250101_120000", content := "PAGE_V1", meta := none }]
      "20240101_000000" "PAGE_V2" "h2" =
    [{ name := "20250101_120000", content := "PAGE_V1", meta := none },
     mkSnapshotEntry "20240101_000000" "PAGE_V2" "h2"] from by decide] at hch
  exact absurd (List.chain'_cons.mp hch).1 (by decide)

/-- C5 amended: the monotonic-counter guard of the claim does not exist;
what holds is conditional monotonicity: when the wall-clock timestamp is
strictly greater than every stored name, `save_snapshot` appends the new
snapshot at the end, and a strictly increasing history stays strictly
increasing. -/
theorem save_snapshot_append_monotone (st : List Entry) (ts c h : String)
    (hgt : ∀ e ∈ st, strLt e.name ts = true) :
    save_snapshot st ts c h = st ++ [mkSnapshotEntry ts c h] ∧
    (List.Chain' (fun a b : Entry => strLt a.name b.name = true) st →
      List.Chain' (fun a b : Entry => strLt a.name b.name = true)
        (save_snapshot st ts c h)) := by
  have happ : save_snapshot st ts c h = st ++ [mkSnapshotEntry ts c h] := by
    unfold save_snapshot
    exact writeEntry_fresh st _ (fun f hf => strLt_ne (hgt f hf))
  refine ⟨happ, fun hch => ?_⟩
  rw [happ]
  refine List.Chain'.append hch (List.chain'_singleton _) ?_
  intro x hx y hy
  simp only [List.head?_cons, Option.mem_def, Option.some.injEq] at hy
  obtain ⟨hne, rfl⟩ := List.mem_getLast?_eq_getLast hx
  subst hy
  exact hgt _ (List.getLast_mem hne)

/-- Closed witness for `save_snapshot_append_monotone`: one stored snapshot,
clock strictly ahead of it. -/
theorem save_snapshot_append_monotone_witness :
    let e1 : Entry := { name := "20250101_000000", content := "PAGE_V1",
                        meta := none }
    (∀ e ∈ [e1], strLt e.name "20250102_000000" = true) ∧
    save_snapshot [e1] "20250102_000000" "PAGE_V2" "h2" =
      [e1] ++ [mkSnapshotEntry "20250102_000000" "PAGE_V2" "h2"] ∧
    List.Chain' (fun a b : Entry => strLt a.name b.name = true)
      (save_snapshot [e1] "20250102_000000" "PAGE_V2" "h2") := by
  intro e1
  obtain ⟨h1, h2⟩ := save_snapshot_append_monotone [e1] "20250102_000000"
    "PAGE_V2" "h2" (by decide)
  exact ⟨by decide, h1, h2 (List.chain'_singleton e1)⟩

/-- C8 counterexample: MD5 is not injective, so the claimed equivalence
`digest(C1) == digest(C2) iff C1 == C2` fails.  The two 72-character ASCII
strings below are a published MD5 text collision: they differ in one
character yet `calculate_hash` maps them to the same hexdigest. -/
theorem digest_injectivity_cex :
    ¬ (∀ C1 C2 : String,
        calculate_hash C1 = calculate_hash C2 ↔ C1 = C2) := by
  intro H
  have hcoll : calculate_hash
      "TEXTCOLLBYfGiJUETHQ4hAcKSMd5zYpgqf1YRDhkmxHkhPWptrkoyz28wnI9V0aHeAuaKnak" =
      calculate_hash
      "TEXTCOLLBYfGiJUETHQ4hEcKSMd5zYpgqf1YRDhkmxHkhPWptrkoyz28wnI9V0aHeAuaKnak" := by
    decide
  have hne :
      ("TEXTCOLLBYfGiJUETHQ4hAcKSMd5zYpgqf1YRDhkmxHkhPWptrkoyz28wnI9V0aHeAuaKnak" : String) ≠
      "TEXTCOLLBYfGiJUETHQ4hEcKSMd5zYpgqf1YRDhkmxHkhPWptrkoyz28wnI9V0aHeAuaKnak" := by
    decide
  exact hne ((H _ _).mp hcoll)

/-- C8 amended: the digest is deterministic and is a congruence (equal
contents always yield equal digests, so distinct digests certify distinct
contents); the converse direction of the claimed equivalence is dropped,
since MD5 digests can collide on distinct contents. -/
theorem digest_deterministic_congruence :
    (∀ C : String, calculate_hash C = calculate_hash C) ∧
    (∀ C1 C2 : String, C1 = C2 → calculate_hash C1 = calculate_hash C2) ∧
    (∀ C1 C2 : String, calculate_hash C1 ≠ calculate_hash C2 → C1 ≠ C2) :=
  ⟨fun _ => rfl,
   fun _ _ h => by rw [h],
   fun _ _ h heq => h (by rw [heq])⟩

/-- Closed witness for `digest_deterministic_congruence`. -/
theorem digest_deterministic_congruence_witness :
    calculate_hash "PAGE_V1" = calculate_hash "PAGE_V1" ∧
    ("PAGE_V1" : String) ≠ "PAGE_V2" :=
  ⟨digest_deterministic_congruence.2.1 "PAGE_V1" "PAGE_V1" rfl,
   digest_deterministic_congruence.2.2 "PAGE_V1" "PAGE_V2" (by decide)⟩

/-- C9: the renderer is total on sparse results: both report artifacts are
written for any analysis dict, every absent optional field renders as an
omitted (empty) section, and an absent confidence renders exactly as the
default level `"unknown"`. -/
theorem sparse_analysis_renders (fs : FS) (now : String) (a : AnalysisDict) :
    ((save_reports fs now a).reportMd).isSome = true ∧
    (save_reports fs now a).reportMd = some (generate_markdown_report now a) ∧
    (save_reports fs now a).reportJson = some a ∧
    (a.change_summary = none → change_summary_section a = "") ∧
    (a.key_points = none → key_points_section a = "") ∧
    (a.stakeholder_impact = none → stakeholder_section a = "") ∧
    (a.important_dates = none → important_dates_section a = "") ∧
    (a.action_items = none → action_items_section a = "") ∧
    (a.confidence = none →
      confidence_section a =
        confidence_section { a with confidence := some "unknown" }) := by
  refine ⟨rfl, rfl, rfl, ?_, ?_, ?_, ?_, ?_, ?_⟩
  · intro h
    simp [change_summary_section, h]
  · intro h
    simp [key_points_section, h]
  · intro h
    simp [stakeholder_section, h]
  · intro h
    simp [important_dates_section, h]
  · intro h
    simp [action_items_section, h]
  · intro h
    simp [confidence_section, h]

/-- Closed witness for `sparse_analysis_renders`: the fully sparse dict. -/
theorem sparse_analysis_renders_witness :
    let fs : FS := { snapshots := [], reportMd := none, reportJson := none,
                     notified := none }
    let a : AnalysisDict := {}
    ((save_reports fs "t" a).reportMd).isSome = true ∧
    (save_reports fs "t" a).reportMd = some (generate_markdown_report "t" a) ∧
    (save_reports fs "t" a).reportJson = some a ∧
    change_summary_section a = "" ∧
    key_points_section a = "" ∧
    stakeholder_section a = "" ∧
    important_dates_section a = "" ∧
    action_items_section a = "" ∧
    confidence_section a =
      confidence_section { a with confidence := some "unknown" } := by
  intro fs a
  obtain ⟨h1, h2, h3, h4, h5, h6, h7, h8, h9⟩ := sparse_analysis_renders fs "t" a
  exact ⟨h1, h2, h3, h4 rfl, h5 rfl, h6 rfl, h7 rfl, h8 rfl, h9 rfl⟩
